import Mathlib

/-
Verification of the true-random-shuffle repository.

Shallow embedding of the core data-sync and queue-orchestration engine:
  - src/utils/spotify.ts        (token lifecycle, request executor, bulk fetchers,
                                 playback wrappers, Fisher-Yates shuffle)
  - src/hooks/useSpotifyQueries.ts (queue submission pipeline, shuffle-and-queue mutation)
  - src/unnamed/part_000        (web redirect screen token exchange)

Asynchronous storage is modelled as an explicit record of the four credential keys,
HTTP traffic as explicit response values handed to each call, and delays/progress
callbacks as events in an explicit trace.
-/

namespace Spotify

/-! ### Fisher-Yates shuffle (src/utils/spotify.ts, trueRandomShuffle, lines 785-800)

The JS code copies the array and, for `i` from `length - 1` down to `1`, draws a
random value `r` in the half-open unit interval (getSecureRandom: every branch
divides a 32-bit draw by 2^32, or reduces modulo 1), sets
`j = Math.floor(r * (i + 1))` and swaps positions `i` and `j`.  The random source
is modelled as a function from the loop counter to a rational draw. -/
/-- JS destructuring swap `[a[i], a[j]] = [a[j], a[i]]` on a list; when either
index is out of range the draw hypotheses of the theorems exclude the branch. -/
def listSwap {α : Type _} (l : List α) (i j : Nat) : List α :=
  match l[i]?, l[j]? with
  | some a, some b => (l.set i b).set j a
  | _, _ => l


/-- Model of `Math.floor(randomValue * (i + 1))` for a rational draw. -/
def jIndex (r : ℚ) (n : Nat) : Nat :=
  (Int.floor (r * n)).toNat


/-- The shuffle loop: counter `i` runs from `length - 1` down to `1`
(the `i = 0` iteration is not executed, matching `i > 0` in the source). -/
def fyLoop {α : Type _} (rand : Nat → ℚ) (l : List α) : Nat → List α
  | 0 => l
  | i + 1 => fyLoop rand (listSwap l (i + 1) (jIndex (rand (i + 1)) (i + 2))) i


/-- Source function `trueRandomShuffle`: copy of the input shuffled in place by the loop above. -/
def trueRandomShuffle {α : Type _} (l : List α) (rand : Nat → ℚ) : List α :=
  fyLoop rand l (l.length - 1)


/-! ### Credential store and token lifecycle (src/utils/spotify.ts, lines 125-230)

AsyncStorage is modelled by the four credential keys the module ever touches.
Expiry timestamps are stored with String(...) and read back with Number(...),
an identity round trip on integers, so the field is kept as an integer.
A token-endpoint exchange is modelled by the JSON fields the code reads;
a field that is absent or falsy in JS is `none` (for expires_in, the falsy
value 0 is kept explicit). `none` for the whole response models the fetch or
JSON decode throwing. -/
/-- The four AsyncStorage keys used by the module. -/
structure Store where
  accessToken : Option String
  refreshToken : Option String
  expiryTs : Option Int
  codeVerifier : Option String
deriving DecidableEq, Repr


/-- Fields of a token-endpoint JSON response that the code reads. -/
structure TokenResponse where
  access_token : Option String
  refresh_token : Option String
  expires_in : Option Int
deriving DecidableEq, Repr


/-- JS truthiness of the `expires_in` field (`undefined` and `0` are falsy). -/
def truthyExpiresIn : Option Int → Bool
  | none => false
  | some e => e != 0


/-- Source function `exchangeCodeForToken` (src/utils/spotify.ts, lines 125-166): reads the
stored verifier, posts the code, and on a response with an access token
persists the tokens and expiry and removes the verifier.  `resp = none`
models the fetch or `response.json()` throwing (the catch returns false). -/
def exchangeCodeForToken (st : Store) (now : Int) (resp : Option TokenResponse) :
    Store × Bool :=
  match st.codeVerifier with
  | none => (st, false)
  | some _ =>
    match resp with
    | none => (st, false)
    | some data =>
      match data.access_token with
      | none => (st, false)
      | some at_ =>
        let st1 := { st with accessToken := some at_ }
        -- setRefreshToken(data.refresh_token) is called unconditionally
        let st2 := { st1 with refreshToken := data.refresh_token }
        let newExpiry : Int :=
          if truthyExpiresIn data.expires_in then
            now + (data.expires_in.getD 0 - 30) * 1000
          else 0
        let st3 := { st2 with expiryTs := some newExpiry }
        let st4 := { st3 with codeVerifier := none }
        (st4, true)


/-- The copy of `exchangeCodeForToken` duplicated in the web redirect screen
(src/unnamed/part_000, lines 69-119): same shape, but refresh token and
expiry are only written when present, and the verifier is again removed
only on the success branch. -/
def exchangeCodeForTokenWeb (st : Store) (now : Int) (resp : Option TokenResponse) :
    Store × Bool :=
  match st.codeVerifier with
  | none => (st, false)
  | some _ =>
    match resp with
    | none => (st, false)
    | some data =>
      match data.access_token with
      | none => (st, false)
      | some at_ =>
        let st1 := { st with accessToken := some at_ }
        let st2 := if data.refresh_token.isSome then
            { st1 with refreshToken := data.refresh_token } else st1
        let st3 := if truthyExpiresIn data.expires_in then
            { st2 with expiryTs := some (now + (data.expires_in.getD 0 - 30) * 1000) }
          else st2
        let st4 := { st3 with codeVerifier := none }
        (st4, true)


/-- Source function `refreshAccessToken` (src/utils/spotify.ts, lines 197-230): posts the
stored refresh token; on a response with an access token persists the new
access token, the refresh token when one is returned, and then writes the
expiry slot twice: first `Date.now() + (expires_in - 30) * 1000`, then -
when `expires_in` is truthy - the raw `expires_in` value itself. -/
def refreshAccessToken (st : Store) (now : Int) (resp : Option TokenResponse) :
    Store × Bool :=
  match st.refreshToken with
  | none => (st, false)
  | some _ =>
    match resp with
    | none => (st, false)
    | some data =>
      match data.access_token with
      | none => (st, false)
      | some at_ =>
        let st1 := { st with accessToken := some at_ }
        let st2 := if data.refresh_token.isSome then
            { st1 with refreshToken := data.refresh_token } else st1
        let newExpiry : Int :=
          if truthyExpiresIn data.expires_in then
            now + (data.expires_in.getD 0 - 30) * 1000
          else 0
        let st3 := { st2 with expiryTs := some newExpiry }
        -- duplicated setItem of the access token (same value)
        let st4 := { st3 with accessToken := some at_ }
        -- duplicated setItem of the expiry slot with the RAW lifetime
        let st5 := if truthyExpiresIn data.expires_in then
            { st4 with expiryTs := some (data.expires_in.getD 0) } else st4
        (st5, true)


/-! ### Authenticated request executor (src/utils/spotify.ts, makeApiCall, lines 232-327)

One fetch is modelled by the parts of the response the code inspects: the
status, whether the content type is JSON, the decoded body (none models a
body that is missing or fails to decode) and, for 403 responses, whether the
error message contains the "Insufficient client scope" marker.  The at most
two fetches of one call and the token-endpoint responses of the at most two
refreshes are provided up front in an environment record.  The executor
returns the final store, the outcome - a thrown error or the value the JS
promise resolves to (none models `null`) - and the trace of fetches and
refresh invocations it performed. -/
/-- One HTTP response as inspected by makeApiCall; `networkError` models the
fetch itself rejecting. -/
inductive FetchOutcome (α : Type) where
  | response (status : Nat) (ctJson : Bool) (body : Option α) (insufficientScope : Bool)
  | networkError
deriving DecidableEq


/-- The errors that can propagate out of makeApiCall: the rate-limit error is
re-thrown by its catch block, and the missing-access-token error is thrown
before the try block.  All other internal throws (403 variants, network
errors) are caught and turned into a null result. -/
inductive Thrown where
  | rateLimit
  | noToken
deriving DecidableEq


/-- Trace events: a fetch of the request, or a refreshAccessToken invocation. -/
inductive ApiEvent where
  | fetch
  | refreshCall
deriving DecidableEq


/-- All remote interactions one makeApiCall invocation can consume. -/
structure ApiEnv (α : Type) where
  first : FetchOutcome α
  retry : FetchOutcome α
  proactiveTokenResp : Option TokenResponse
  reactiveTokenResp : Option TokenResponse


/-- The proactive-refresh guard: `accessTokenExpiryTs && Date.now() > accessTokenExpiryTs`
(a stored 0 is falsy after the string-to-number round trip). -/
def proactiveRefreshDue (st : Store) (now : Int) : Bool :=
  match st.expiryTs with
  | none => false
  | some e => e != 0 && now > e


/-- Dispatch of the retry response inside the 401 branch, in source order:
204, then 403 (throws, later caught), then 429 (throws, re-thrown), then
`retry.ok`; any other status falls through to the final `return null`. -/
def retryDispatch {α : Type} (f : FetchOutcome α) : Except Thrown (Option α) :=
  match f with
  | .networkError => .ok none
  | .response status ctJson body _scope =>
    if status = 204 then .ok none
    else if status = 403 then .ok none
    else if status = 429 then .error .rateLimit
    else if 200 ≤ status ∧ status ≤ 299 then
      if ctJson then .ok body else .ok none
    else .ok none


/-- Source function `makeApiCall` (src/utils/spotify.ts, lines 232-327). -/
def makeApiCall {α : Type} (st : Store) (now : Int) (env : ApiEnv α) :
    Store × Except Thrown (Option α) × List ApiEvent :=
  match st.accessToken with
  | none => (st, .error .noToken, [])
  | some _ =>
    let proactive := proactiveRefreshDue st now
    let st1 := if proactive then
        (refreshAccessToken st now env.proactiveTokenResp).1 else st
    let evs1 : List ApiEvent := if proactive then [.refreshCall, .fetch] else [.fetch]
    match env.first with
    | .networkError => (st1, .ok none, evs1)
    | .response status ctJson body _scope =>
      if status = 204 then (st1, .ok none, evs1)
      else if 200 ≤ status ∧ status ≤ 299 then
        if ctJson then (st1, .ok body, evs1) else (st1, .ok none, evs1)
      else if status = 429 then (st1, .error .rateLimit, evs1)
      else if status = 403 then (st1, .ok none, evs1)
      else if status = 401 then
        let refreshOut := refreshAccessToken st1 now env.reactiveTokenResp
        if refreshOut.2 then
          (refreshOut.1, retryDispatch env.retry, evs1 ++ [.refreshCall, .fetch])
        else
          (refreshOut.1, .ok none, evs1 ++ [.refreshCall])
      else (st1, .ok none, evs1)


/-! ### Playback-control wrappers (src/utils/spotify.ts, lines 633-682)

Each wrapper performs one makeApiCall and returns `res !== null || true`.
Thrown errors (rate limit, missing token) propagate; a normal return is the
boolean expression.  The URL/method/body arguments of the source functions do
not influence the modelled outcome but are kept in the signatures. -/
/-- The expression `res !== null || true` returned by every wrapper. -/
def wrapperResult {α : Type} (res : Except Thrown (Option α)) : Except Thrown Bool :=
  match res with
  | .error t => .error t
  | .ok r => .ok (r.isSome || true)


/-- Source function `playUris` (lines 633-641). -/
def playUris (st : Store) (now : Int) (env : ApiEnv Unit)
    (uris : List String) (deviceId : Option String) (positionMs : Option Int) :
    Except Thrown Bool :=
  wrapperResult (makeApiCall st now env).2.1


/-- Source function `resume` (lines 643-647). -/
def resume (st : Store) (now : Int) (env : ApiEnv Unit) (deviceId : Option String) :
    Except Thrown Bool :=
  wrapperResult (makeApiCall st now env).2.1


/-- Source function `pause` (lines 649-653). -/
def pause (st : Store) (now : Int) (env : ApiEnv Unit) (deviceId : Option String) :
    Except Thrown Bool :=
  wrapperResult (makeApiCall st now env).2.1


/-- Source function `next` (lines 655-659). -/
def next (st : Store) (now : Int) (env : ApiEnv Unit) (deviceId : Option String) :
    Except Thrown Bool :=
  wrapperResult (makeApiCall st now env).2.1


/-- Source function `previous` (lines 661-665). -/
def previous (st : Store) (now : Int) (env : ApiEnv Unit) (deviceId : Option String) :
    Except Thrown Bool :=
  wrapperResult (makeApiCall st now env).2.1


/-- Source function `setShuffle` (lines 667-671). -/
def setShuffle (st : Store) (now : Int) (env : ApiEnv Unit)
    (enabled : Bool) (deviceId : Option String) : Except Thrown Bool :=
  wrapperResult (makeApiCall st now env).2.1


/-- Source function `transferPlayback` (lines 673-676). -/
def transferPlayback (st : Store) (now : Int) (env : ApiEnv Unit)
    (deviceId : String) (play : Bool) : Except Thrown Bool :=
  wrapperResult (makeApiCall st now env).2.1


/-- Source function `addToQueue` (lines 678-682). -/
def addToQueue (st : Store) (now : Int) (env : ApiEnv Unit)
    (uri : String) (deviceId : Option String) : Except Thrown Bool :=
  wrapperResult (makeApiCall st now env).2.1


/-! ### Bulk collection fetchers (src/utils/spotify.ts, lines 361-432 and 434-525)

A page response is the fields the code reads: the item list (each item is the
nested `track` object, which the provider may null out) and the reported
total.  `fetch k` stands for the makeApiCall of page index `k` (offset
`k * 50`) together with the surrounding `.then`/`.catch`: its value is the
executor outcome, an `Except Thrown (Option Page)`.  In both fetchers the
page-request loop issues windows of 5 page indices; each window is awaited
in window order (Promise.all preserves issue order), so the aggregate is in
page-then-intra-page order. -/
/-- One page as read by the fetchers: nested track objects (possibly null)
and the reported collection total. -/
structure Page (α : Type) where
  items : List (Option α)
  total : Nat
deriving DecidableEq


/-- Spotify page size (`limit = 50`). -/
def pageLimit : Nat := 50


/-- Window width (`CONCURRENT_REQUESTS = 5`). -/
def CONCURRENT_REQUESTS : Nat := 5


/-- The `.then` mapping of one remaining-page promise: a thrown error is
caught and becomes an empty slice; a null or itemless body becomes an empty
slice; otherwise the non-null tracks of the page. -/
def pageItems {α : Type} (r : Except Thrown (Option (Page α))) : List α :=
  match r with
  | .error _ => []
  | .ok none => []
  | .ok (some p) => p.items.filterMap id


/-- The window loop over remaining pages: for `i = 0, 5, 10, ...` issue page
indices `i+1 .. i+min(5, remainingPages-i)`, await the window, append its
slices in window order; returns the aggregated tracks and the list of
requested offsets. -/
def fetchRestAux {α : Type} (fetch : Nat → Except Thrown (Option (Page α)))
    (remainingPages i : Nat) : List α × List Nat :=
  if h : i < remainingPages then
    let batch := (List.range (min CONCURRENT_REQUESTS (remainingPages - i))).map
      (fun j => i + j + 1)
    let slices := (batch.map (fun p => pageItems (fetch p))).flatten
    let offsets := batch.map (fun p => p * pageLimit)
    let rest := fetchRestAux fetch remainingPages (i + CONCURRENT_REQUESTS)
    (slices ++ rest.1, offsets ++ rest.2)
  else ([], [])
termination_by remainingPages - i
decreasing_by
  simp only [CONCURRENT_REQUESTS]
  omega


/-- Source function `getPlaylistTracks` (lines 361-432), instrumented with the offsets of the
page requests issued after the first page.  The outer catch logs and
re-throws, so thrown first-page errors propagate. -/
def getPlaylistTracks {α : Type} (fetch : Nat → Except Thrown (Option (Page α))) :
    Except Thrown (List α) × List Nat :=
  match fetch 0 with
  | .error t => (.error t, [])
  | .ok none => (.ok [], [])
  | .ok (some firstPage) =>
    let tracks0 := firstPage.items.filterMap id
    if firstPage.items.length < pageLimit ∨ firstPage.total ≤ pageLimit then
      (.ok tracks0, [])
    else
      let remainingPages := (firstPage.total - pageLimit + (pageLimit - 1)) / pageLimit
      let rest := fetchRestAux fetch remainingPages 0
      (.ok (tracks0 ++ rest.1), rest.2)


/-- Source function `getUserSavedTracks` (lines 434-525): identical pagination shape (the
source duplicates the loop inline); the outer catch would degrade a thrown
error whose `status` is 403 or whose message contains "Insufficient client
scope" to an empty list, but the only errors makeApiCall can throw are the
rate-limit and missing-token errors, which match neither test and are
re-thrown. -/
def getUserSavedTracks {α : Type} (fetch : Nat → Except Thrown (Option (Page α))) :
    Except Thrown (List α) × List Nat :=
  match fetch 0 with
  | .error Thrown.rateLimit => (.error Thrown.rateLimit, [])
  | .error Thrown.noToken => (.error Thrown.noToken, [])
  | .ok none => (.ok [], [])
  | .ok (some firstPage) =>
    let tracks0 := firstPage.items.filterMap id
    if firstPage.items.length < pageLimit ∨ firstPage.total ≤ pageLimit then
      (.ok tracks0, [])
    else
      let remainingPages := (firstPage.total - pageLimit + (pageLimit - 1)) / pageLimit
      let rest := fetchRestAux fetch remainingPages 0
      (.ok (tracks0 ++ rest.1), rest.2)


/-- Source function `hasRequiredScopes` (lines 532-544): makes one probe call in a
try/catch; returns false only for a caught error whose message contains
"Insufficient client scope".  The only throwable errors are the rate-limit
and missing-token messages, which do not contain that marker, and every
non-thrown outcome returns true, so the function is constantly true. -/
def hasRequiredScopes (st : Store) (now : Int) (env : ApiEnv Unit) : Bool :=
  match (makeApiCall st now env).2.1 with
  | .ok _ => true
  | .error .rateLimit => true -- caught; the rate-limit message lacks the scope marker
  | .error .noToken => true -- caught; the no-access-token message lacks the scope marker


/-! ### Queue submission pipeline (src/hooks/useSpotifyQueries.ts, batchQueueTracks, lines 108-162)

The pipeline walks the track list strictly sequentially.  Each addToQueue
attempt is classified by an outcome oracle: success, a 429-classified error
(`error.status === 429` or a message containing "429"), or any other error.
`oracle i k` is the classification of attempt `k` on track `i`.  The run is
modelled as the trace of its attempts, backoff sleeps, inter-item sleeps and
onProgress calls.  The inner while loop runs at most 5 times (retryCount
strictly increases on the only repeating branch and the guard bounds it by
3), so a structural fuel of 5 reproduces it exactly. -/
/-- Classification of one addToQueue attempt. -/
inductive Outcome where
  | success
  | err429
  | errOther
deriving DecidableEq


/-- Trace events of a pipeline run. -/
inductive QueueEvent where
  | attempt (uri : String)
  | backoff (ms : Nat)
  | interDelay (ms : Nat)
  | progress (p total : Nat)
deriving DecidableEq


/-- Constant `maxRetries = 3`. -/
def maxRetries : Nat := 3


/-- The retry-with-backoff while loop for one track (lines 130-151):
attempt; on 429 increment retryCount and, while retries remain, sleep
`2 ^ (retryCount - 1) * 1000` ms and go round again; on any other error
break; on success leave the loop. -/
def queueTrackLoop (o : Nat → Outcome) (uri : String) :
    Nat → Nat → Nat → List QueueEvent
  | 0, _, _ => []
  | fuel + 1, retryCount, attemptIdx =>
    if retryCount ≤ maxRetries then
      match o attemptIdx with
      | .success => [.attempt uri]
      | .errOther => [.attempt uri] -- break: no retry for non-429 errors
      | .err429 =>
        let rc := retryCount + 1
        if rc ≤ maxRetries then
          .attempt uri :: .backoff (2 ^ (rc - 1) * 1000) ::
            queueTrackLoop o uri fuel rc (attemptIdx + 1)
        else
          [.attempt uri] -- retries exhausted: log and fall out of the loop
    else []


/-- One track processed by the pipeline (fuel 5 covers every loop path). -/
def queueOneTrack (o : Nat → Outcome) (uri : String) : List QueueEvent :=
  queueTrackLoop o uri (maxRetries + 2) 0 0


/-- The per-track for loop of batchQueueTracks: process the track, bump the
completed counter and fire onProgress, and sleep 150 ms between successive
items (not after the last). -/
def batchAux (o : Nat → Nat → Outcome) :
    List String → Nat → Nat → List QueueEvent
  | [], _, _ => []
  | uri :: rest, completed, total =>
    queueOneTrack (o completed) uri
      ++ [.progress (completed + 1) total]
      ++ (if rest.isEmpty then [] else [.interDelay 150])
      ++ batchAux o rest (completed + 1) total


/-- Source function `batchQueueTracks` over the uris of the given tracks. -/
def batchQueueTracks (o : Nat → Nat → Outcome) (uris : List String) :
    List QueueEvent :=
  batchAux o uris 0 uris.length


/-- The onProgress trace of a run. -/
def progressList (evs : List QueueEvent) : List (Nat × Nat) :=
  evs.filterMap fun e =>
    match e with
    | .progress p t => some (p, t)
    | _ => none


/-- The attempted-submission trace of a run. -/
def attemptList (evs : List QueueEvent) : List String :=
  evs.filterMap fun e =>
    match e with
    | .attempt u => some u
    | _ => none


/-! ### Shuffle-and-queue mutation (src/hooks/useSpotifyQueries.ts, lines 164-285)

After resolving the source track list, the mutation shuffles it once, plays
the first element of the shuffled list and hands `rest.slice(0, 149)` to the
pipeline; with no resolved device it returns false having submitted nothing. -/
/-- Constant `MAX_QUEUE_SIZE = 150`. -/
def MAX_QUEUE_SIZE : Nat := 150


/-- The submissions of one mutation run: the uris handed to playUris, the
uris handed to batchQueueTracks, and the returned boolean. -/
structure ShuffleRun (α : Type _) where
  played : List α
  queued : List α
  result : Bool


/-- The mutationFn of useQueueShuffleMutation, restricted to the submission
logic over the resolved track list: empty list returns false; otherwise the
list is shuffled once, `first = freshShuffled[0]`,
`tracksToQueue = freshShuffled.slice(1).slice(0, MAX_QUEUE_SIZE - 1)`; no
resolved device returns false with nothing submitted; otherwise the first
track is played and tracksToQueue is drained through the pipeline.  (The
empty-shuffle branch is unreachable: shuffling preserves the length.) -/
def useQueueShuffleMutation {α : Type _} (tracks : List α) (rand : Nat → ℚ)
    (device : Option String) : ShuffleRun α :=
  if tracks.isEmpty then ⟨[], [], false⟩
  else
    match trueRandomShuffle tracks rand, device with
    | [], _ => ⟨[], [], false⟩
    | _ :: _, none => ⟨[], [], false⟩
    | first :: rest, some _ => ⟨[first], rest.take (MAX_QUEUE_SIZE - 1), true⟩


/-! ### Lemmas and claim theorems -/

/-- The draw is always a legal index: with `0 ≤ r < 1`,
`Math.floor(r * (i + 1)) ≤ i`, so the swap hits positions inside the array. -/
lemma jIndex_le (r : ℚ) (i : Nat) (h0 : 0 ≤ r) (h1 : r < 1) :
    jIndex r (i + 1) ≤ i := by
  unfold jIndex
  have hfl : Int.floor (r * ((i + 1 : Nat) : ℚ)) < (i : Int) + 1 := by
    apply Int.floor_lt.mpr
    push_cast
    nlinarith [mul_pos (sub_pos.mpr h1) (show (0 : ℚ) < (i : ℚ) + 1 by positivity)]
  omega


/-- Pulling the element at index `k` to the front after writing `x` there
is a permutation of pushing `x` to the front. -/
lemma cons_set_perm {α : Type _} :
    ∀ (l : List α) (k : Nat) (a x : α), l[k]? = some a →
      (a :: l.set k x).Perm (x :: l)
  | [], k, a, x, h => by simp at h
  | y :: ys, 0, a, x, h => by
      simp only [List.getElem?_cons_zero, Option.some.injEq] at h
      subst h
      simp only [List.set_cons_zero]
      exact List.Perm.swap x y ys
  | y :: ys, k + 1, a, x, h => by
      simp only [List.getElem?_cons_succ] at h
      simp only [List.set_cons_succ]
      exact (List.Perm.swap y a _).trans
        (((cons_set_perm ys k a x h).cons y).trans (List.Perm.swap x y ys))


/-- Swapping two in-range positions of a list is a permutation. -/
lemma set_set_perm {α : Type _} :
    ∀ (l : List α) (i j : Nat) (a b : α), l[i]? = some a → l[j]? = some b →
      ((l.set i b).set j a).Perm l
  | [], i, j, a, b, ha, hb => by simp at ha
  | x :: xs, 0, 0, a, b, ha, hb => by
      simp only [List.getElem?_cons_zero, Option.some.injEq] at ha hb
      subst ha
      subst hb
      simp only [List.set_cons_zero]
      exact List.Perm.refl _
  | x :: xs, 0, j + 1, a, b, ha, hb => by
      simp only [List.getElem?_cons_zero, Option.some.injEq] at ha
      simp only [List.getElem?_cons_succ] at hb
      subst ha
      simp only [List.set_cons_zero, List.set_cons_succ]
      exact cons_set_perm xs j b x hb
  | x :: xs, i + 1, 0, a, b, ha, hb => by
      simp only [List.getElem?_cons_zero, Option.some.injEq] at hb
      simp only [List.getElem?_cons_succ] at ha
      subst hb
      simp only [List.set_cons_zero, List.set_cons_succ]
      exact cons_set_perm xs i a x ha
  | x :: xs, i + 1, j + 1, a, b, ha, hb => by
      simp only [List.getElem?_cons_succ] at ha hb
      simp only [List.set_cons_succ]
      exact (set_set_perm xs i j a b ha hb).cons x


/-- The swap always yields a permutation (out-of-range branch is the identity). -/
lemma listSwap_perm {α : Type _} (l : List α) (i j : Nat) :
    (listSwap l i j).Perm l := by
  unfold listSwap
  cases ha : l[i]? with
  | none => exact List.Perm.refl l
  | some a =>
      cases hb : l[j]? with
      | none => exact List.Perm.refl l
      | some b => exact set_set_perm l i j a b ha hb


/-- Every run of the shuffle loop permutes its input. -/
lemma fyLoop_perm {α : Type _} (rand : Nat → ℚ) :
    ∀ (i : Nat) (l : List α), (fyLoop rand l i).Perm l
  | 0, l => List.Perm.refl l
  | i + 1, l => by
      exact (fyLoop_perm rand i _).trans (listSwap_perm l (i + 1) _)


/-- The shuffle output permutes the input, for every random source. -/
lemma trueRandomShuffle_perm {α : Type _} (l : List α) (rand : Nat → ℚ) :
    (trueRandomShuffle l rand).Perm l :=
  fyLoop_perm rand (l.length - 1) l


/-- Claim C2: for every input array and every possible sequence of random draws
(each in the unit interval, as produced by getSecureRandom), the output of
trueRandomShuffle is a permutation of the input: same length and multiset-equal. -/
theorem C2_shuffle_is_permutation {α : Type _} (l : List α) (rand : Nat → ℚ)
    (hr : ∀ k, 0 ≤ rand k ∧ rand k < 1) :
    (trueRandomShuffle l rand).Perm l ∧
      (trueRandomShuffle l rand).length = l.length ∧
      ((trueRandomShuffle l rand : List α) : Multiset α) = (l : Multiset α) := by
  refine ⟨trueRandomShuffle_perm l rand, (trueRandomShuffle_perm l rand).length_eq, ?_⟩
  exact Multiset.coe_eq_coe.mpr (trueRandomShuffle_perm l rand)


/-- Claim C2, witnessed on a concrete list and a concrete random source. -/
theorem C2_shuffle_is_permutation_witness :
    (trueRandomShuffle [1, 2, 3] (fun _ => (1 : ℚ) / 2)).Perm [1, 2, 3] ∧
      (trueRandomShuffle [1, 2, 3] (fun _ => (1 : ℚ) / 2)).length = 3 ∧
      ((trueRandomShuffle [1, 2, 3] (fun _ => (1 : ℚ) / 2) : List ℕ) : Multiset ℕ) =
        ([1, 2, 3] : List ℕ) :=
  C2_shuffle_is_permutation [1, 2, 3] (fun _ => (1 : ℚ) / 2)
    (fun _ => ⟨by norm_num, by norm_num⟩)


/-- Claim C3 (code bug): after a successful refresh whose response carries
expires_in = 3600 at time 1000000000, the persisted expiry slot ends up
holding the raw lifetime 3600 - because line 221 of src/utils/spotify.ts
overwrites the correctly computed timestamp with String(expiresInSec) -
instead of the claimed refresh-time-plus-lifetime-minus-30s value
1003570000.  The second half of the claim does hold: a response without a
refresh token leaves the stored refresh token unchanged. -/
theorem C3_refresh_expiry_bug :
    (refreshAccessToken ⟨some "old", some "rtok", some 0, none⟩ 1000000000
        (some ⟨some "new", none, some 3600⟩)).2 = true ∧
    (refreshAccessToken ⟨some "old", some "rtok", some 0, none⟩ 1000000000
        (some ⟨some "new", none, some 3600⟩)).1.expiryTs = some 3600 ∧
    (1000000000 + (3600 - 30) * 1000 : Int) = 1003570000 ∧
    (refreshAccessToken ⟨some "old", some "rtok", some 0, none⟩ 1000000000
        (some ⟨some "new", none, some 3600⟩)).1.expiryTs ≠ some 1003570000 ∧
    (refreshAccessToken ⟨some "old", some "rtok", some 0, none⟩ 1000000000
        (some ⟨some "new", none, some 3600⟩)).1.refreshToken = some "rtok" := by
  refine ⟨rfl, rfl, by norm_num, ?_, rfl⟩
  decide


/-- Claim C7 counterexample: an exchange attempt whose response lacks an
access token returns false and leaves the PKCE code verifier stored -
the claim that the verifier is deleted after every attempt is false. -/
theorem C7_verifier_counterexample :
    (exchangeCodeForToken ⟨none, none, none, some "ver"⟩ 0
        (some ⟨none, none, none⟩)).2 = false ∧
    (exchangeCodeForToken ⟨none, none, none, some "ver"⟩ 0
        (some ⟨none, none, none⟩)).1.codeVerifier = some "ver" ∧
    (exchangeCodeForTokenWeb ⟨none, none, none, some "ver"⟩ 0
        (some ⟨none, none, none⟩)).1.codeVerifier = some "ver" := by
  exact ⟨rfl, rfl, rfl⟩


/-- Claim C7, amended: in both copies of the exchange, the stored code
verifier is deleted exactly when the attempt succeeds (the response carries
an access token); on every failure path it is left unchanged in storage. -/
theorem C7_verifier_deleted_iff_success (st : Store) (now : Int)
    (resp : Option TokenResponse) :
    (exchangeCodeForToken st now resp).1.codeVerifier =
      (if (exchangeCodeForToken st now resp).2 then none else st.codeVerifier) ∧
    (exchangeCodeForTokenWeb st now resp).1.codeVerifier =
      (if (exchangeCodeForTokenWeb st now resp).2 then none else st.codeVerifier) := by
  obtain ⟨a, r, e, v⟩ := st
  constructor
  · cases v with
    | none => rfl
    | some v =>
      cases resp with
      | none => rfl
      | some data =>
        obtain ⟨ta, tr, te⟩ := data
        cases ta <;> rfl
  · cases v with
    | none => rfl
    | some v =>
      cases resp with
      | none => rfl
      | some data =>
        obtain ⟨ta, tr, te⟩ := data
        cases ta <;> rfl


/-- Claim C4: for a request whose stored token is present, whose expiry has
not passed (so the independent proactive refresh does not fire), and whose
first response is 401, the executor performs exactly one refresh attempt and
at most one retried fetch: the trace is the first fetch, one refreshCall,
and one more fetch exactly when the refresh succeeded; and when the retried
fetch also returns 401 (or the refresh failed) the call resolves to the null
authentication-failure result - no further refresh-retry cycle exists. -/
theorem C4_single_refresh_retry {α : Type} (st : Store) (now : Int)
    (env : ApiEnv α) (tok : String) (ctJson : Bool) (body : Option α) (sc : Bool)
    (htok : st.accessToken = some tok)
    (hexp : proactiveRefreshDue st now = false)
    (hfirst : env.first = .response 401 ctJson body sc) :
    (makeApiCall st now env).2.2 =
      [ApiEvent.fetch, ApiEvent.refreshCall] ++
        (if (refreshAccessToken st now env.reactiveTokenResp).2 then
          [ApiEvent.fetch] else []) ∧
    (∀ rct rbody rsc, env.retry = .response 401 rct rbody rsc →
      (makeApiCall st now env).2.1 = .ok none) := by
  unfold makeApiCall
  rw [htok, hexp, hfirst]
  simp only [Bool.false_eq_true, if_false]
  constructor
  · by_cases hr : (refreshAccessToken st now env.reactiveTokenResp).2 <;>
      simp [hr]
  · intro rct rbody rsc hretry
    by_cases hr : (refreshAccessToken st now env.reactiveTokenResp).2 <;>
      simp [hr, hretry, retryDispatch]


/-- Claim C4, witnessed: a concrete 401-then-401 run performs one refresh,
one retry, and resolves to the null failure result. -/
theorem C4_single_refresh_retry_witness :
    (makeApiCall (α := Unit) ⟨some "tok", some "rt", some 0, none⟩ 5
        ⟨.response 401 false none false, .response 401 false none false,
          none, some ⟨some "new", none, some 3600⟩⟩).2.2 =
      [ApiEvent.fetch, ApiEvent.refreshCall] ++
        (if (refreshAccessToken ⟨some "tok", some "rt", some 0, none⟩ 5
            (some ⟨some "new", none, some 3600⟩)).2 then
          [ApiEvent.fetch] else []) ∧
    (∀ rct rbody rsc,
      (⟨.response 401 false none false, .response 401 false none false,
          none, some ⟨some "new", none, some 3600⟩⟩ : ApiEnv Unit).retry =
        .response 401 rct rbody rsc →
      (makeApiCall (α := Unit) ⟨some "tok", some "rt", some 0, none⟩ 5
          ⟨.response 401 false none false, .response 401 false none false,
            none, some ⟨some "new", none, some 3600⟩⟩).2.1 = .ok none) :=
  C4_single_refresh_retry _ 5 _ "tok" false none false rfl rfl rfl


/-- Claim C10: every playback-control wrapper returns true on every path on
which it returns normally, whatever makeApiCall resolved to; a false return
is unreachable, so the boolean carries no success information.  Formally,
each wrapper equals the executor outcome with every normal resolution mapped
to the constant `true`. -/
theorem C10_wrappers_always_true (st : Store) (now : Int) (env : ApiEnv Unit)
    (uris : List String) (dOpt : Option String) (pMs : Option Int)
    (d : String) (b : Bool) (uri : String) :
    playUris st now env uris dOpt pMs = ((makeApiCall st now env).2.1).map (fun _ => true) ∧
    resume st now env dOpt = ((makeApiCall st now env).2.1).map (fun _ => true) ∧
    pause st now env dOpt = ((makeApiCall st now env).2.1).map (fun _ => true) ∧
    next st now env dOpt = ((makeApiCall st now env).2.1).map (fun _ => true) ∧
    previous st now env dOpt = ((makeApiCall st now env).2.1).map (fun _ => true) ∧
    setShuffle st now env b dOpt = ((makeApiCall st now env).2.1).map (fun _ => true) ∧
    transferPlayback st now env d b = ((makeApiCall st now env).2.1).map (fun _ => true) ∧
    addToQueue st now env uri dOpt = ((makeApiCall st now env).2.1).map (fun _ => true) := by
  have key : wrapperResult (makeApiCall st now env).2.1 =
      ((makeApiCall st now env).2.1).map (fun _ => true) := by
    cases (makeApiCall st now env).2.1 with
    | error t => rfl
    | ok r => simp [wrapperResult, Except.map]
  exact ⟨key, key, key, key, key, key, key, key⟩


/-- List helper: filtering the identity over a list of `some`s recovers the list. -/
lemma filterMap_id_map_some {α : Type _} (l : List α) :
    (l.map some).filterMap id = l := by
  induction l with
  | nil => rfl
  | cons x xs ih => simp [ih]


/-- Claim C8 (code bug): a saved-tracks fetch whose first response is a 403
insufficient-scope rejection resolves to the empty list without throwing
past the data-access boundary (makeApiCall converts the scope error to a
null result), but the needs-re-auth flag is NOT set: hasRequiredScopes
returns true on every input, because the insufficient-scope error is
swallowed inside makeApiCall and the dead catch branch testing for it can
never fire. -/
theorem C8_insufficient_scope_flag_bug :
    (∀ (st : Store) (now : Int) (env : ApiEnv Unit), hasRequiredScopes st now env = true) ∧
    (makeApiCall (α := Page Nat) ⟨some "tok", none, none, none⟩ 0
        ⟨.response 403 true none true, .networkError, none, none⟩).2.1 = .ok none ∧
    (getUserSavedTracks (fun _ =>
        (makeApiCall (α := Page Nat) ⟨some "tok", none, none, none⟩ 0
          ⟨.response 403 true none true, .networkError, none, none⟩).2.1)).1 =
      .ok ([] : List Nat) := by
  refine ⟨?_, rfl, rfl⟩
  intro st now env
  unfold hasRequiredScopes
  rcases (makeApiCall st now env).2.1 with t | r
  · cases t <;> rfl
  · rfl


/-- Claim C9: for a paged collection whose first page reports total 137 with
page size 50 and whose pages are all full, all non-null and error-free, the
fetcher issues exactly two additional page requests, at offsets 50 and 100,
and aggregates exactly 137 items in page-then-intra-page order. -/
theorem C9_pagination_137 {α : Type} (fetch : Nat → Except Thrown (Option (Page α)))
    (l0 l1 l2 : List α)
    (h0 : fetch 0 = .ok (some ⟨l0.map some, 137⟩))
    (h1 : fetch 1 = .ok (some ⟨l1.map some, 137⟩))
    (h2 : fetch 2 = .ok (some ⟨l2.map some, 137⟩))
    (hl0 : l0.length = 50) (hl1 : l1.length = 50) (hl2 : l2.length = 37) :
    (getPlaylistTracks fetch).2 = [50, 100] ∧
    (getPlaylistTracks fetch).1 = .ok (l0 ++ l1 ++ l2) ∧
    (l0 ++ l1 ++ l2).length = 137 := by
  have hrem : (137 - pageLimit + (pageLimit - 1)) / pageLimit = 2 := by
    simp [pageLimit]
  have haux : fetchRestAux fetch 2 0 = (l1 ++ l2, [50, 100]) := by
    rw [fetchRestAux]
    simp only [show (0 < 2) = True by simp, dif_pos (by omega : (0:Nat) < 2)]
    rw [fetchRestAux]
    simp [CONCURRENT_REQUESTS, pageLimit, List.range_succ, pageItems, h1, h2,
      filterMap_id_map_some]
  constructor
  · unfold getPlaylistTracks
    rw [h0]
    simp only [List.length_map, hl0, pageLimit]
    rw [if_neg (by omega)]
    simp [hrem, haux, pageLimit]
  constructor
  · unfold getPlaylistTracks
    rw [h0]
    simp only [List.length_map, hl0, pageLimit]
    rw [if_neg (by omega)]
    simp [hrem, haux, pageLimit, filterMap_id_map_some, List.append_assoc]
  · simp [hl0, hl1, hl2]


/-- Claim C9, witnessed on a concrete three-page collection. -/
theorem C9_pagination_137_witness :
    (getPlaylistTracks (fun k =>
        if k = 0 then .ok (some ⟨(List.range 50).map some, 137⟩)
        else if k = 1 then .ok (some ⟨(List.range 50).map some, 137⟩)
        else .ok (some ⟨(List.range 37).map some, 137⟩))).2 = [50, 100] ∧
    (getPlaylistTracks (fun k =>
        if k = 0 then .ok (some ⟨(List.range 50).map some, 137⟩)
        else if k = 1 then .ok (some ⟨(List.range 50).map some, 137⟩)
        else .ok (some ⟨(List.range 37).map some, 137⟩))).1 =
      .ok (List.range 50 ++ List.range 50 ++ List.range 37) ∧
    (List.range 50 ++ List.range 50 ++ List.range 37).length = 137 :=
  C9_pagination_137 _ (List.range 50) (List.range 50) (List.range 37)
    rfl rfl rfl (by simp) (by simp) (by simp)


/-- A single-track block contains no progress events. -/
lemma progressList_queueTrackLoop (o : Nat → Outcome) (uri : String) :
    ∀ fuel rc ai, progressList (queueTrackLoop o uri fuel rc ai) = []
  | 0, _, _ => rfl
  | fuel + 1, rc, ai => by
    simp only [queueTrackLoop]
    split
    · split
      · rfl
      · rfl
      · split
        · simp only [progressList, List.filterMap_cons]
          exact progressList_queueTrackLoop o uri fuel _ _
        · rfl
    · rfl


/-- Every attempt in a single-track block is an attempt of that same track. -/
lemma attemptList_queueTrackLoop (o : Nat → Outcome) (uri : String) :
    ∀ fuel rc ai, attemptList (queueTrackLoop o uri fuel rc ai) =
      List.replicate (attemptList (queueTrackLoop o uri fuel rc ai)).length uri
  | 0, _, _ => rfl
  | fuel + 1, rc, ai => by
    simp only [queueTrackLoop]
    split
    · split
      · rfl
      · rfl
      · split
        · simp only [attemptList, List.filterMap_cons, List.length_cons]
          rw [List.replicate_succ]
          congr 1
          exact attemptList_queueTrackLoop o uri fuel _ _
        · rfl
    · rfl


/-- Each track is attempted at least once. -/
lemma one_le_attempts (o : Nat → Outcome) (uri : String) :
    1 ≤ (attemptList (queueOneTrack o uri)).length := by
  unfold queueOneTrack queueTrackLoop
  cases o 0 <;> simp [maxRetries, attemptList]


/-- Trace projections distribute over concatenation. -/
lemma progressList_append (l1 l2 : List QueueEvent) :
    progressList (l1 ++ l2) = progressList l1 ++ progressList l2 :=
  List.filterMap_append l1 l2 _


/-- Trace projections distribute over concatenation. -/
lemma attemptList_append (l1 l2 : List QueueEvent) :
    attemptList (l1 ++ l2) = attemptList l1 ++ attemptList l2 :=
  List.filterMap_append l1 l2 _


/-- The progress trace of the pipeline: one event per item, counting
`completed` upward, independent of the per-item outcomes. -/
lemma progressList_batchAux (o : Nat → Nat → Outcome) :
    ∀ (uris : List String) (c t : Nat),
      progressList (batchAux o uris c t) =
        (List.range uris.length).map (fun k => (c + k + 1, t))
  | [], _, _ => rfl
  | uri :: rest, c, t => by
    have hd : progressList (if rest.isEmpty then [] else [.interDelay 150]) = [] := by
      split <;> rfl
    rw [batchAux, progressList_append, progressList_append, progressList_append,
      queueOneTrack, progressList_queueTrackLoop (o c) uri, hd,
      progressList_batchAux o rest (c + 1) t]
    have hp : progressList [QueueEvent.progress (c + 1) t] = [(c + 1, t)] := rfl
    rw [hp]
    simp only [List.nil_append, List.append_nil, List.singleton_append,
      List.length_cons, List.range_succ_eq_map, List.map_cons, List.map_map]
    congr 1
    apply List.map_congr_left
    intro k _
    simp only [Function.comp_apply, Prod.mk.injEq]
    exact ⟨by omega, trivial⟩


/-- The attempt trace of the pipeline: the per-track attempt blocks appear
contiguously, in list order, each a run of attempts of that same track. -/
lemma attemptList_batchAux (o : Nat → Nat → Outcome) :
    ∀ (uris : List String) (c t : Nat),
      attemptList (batchAux o uris c t) =
        (uris.enumFrom c).flatMap (fun p =>
          List.replicate (attemptList (queueOneTrack (o p.1) p.2)).length p.2)
  | [], _, _ => rfl
  | uri :: rest, c, t => by
    have hd : attemptList (if rest.isEmpty then [] else [.interDelay 150]) = [] := by
      split <;> rfl
    have hp : attemptList [QueueEvent.progress (c + 1) t] = [] := rfl
    rw [batchAux, attemptList_append, attemptList_append, attemptList_append,
      hd, hp, attemptList_batchAux o rest (c + 1) t,
      List.enumFrom_cons, List.flatMap_cons]
    simp only [List.append_nil, List.nil_append]
    congr 1
    exact attemptList_queueTrackLoop (o c) uri (maxRetries + 2) 0 0


/-- Normalised progress expectation: the counter runs 1, 2, ..., n with n the
total. -/
lemma progressList_batchQueueTracks (o : Nat → Nat → Outcome) (uris : List String) :
    progressList (batchQueueTracks o uris) =
      (List.range uris.length).map (fun k => (k + 1, uris.length)) := by
  rw [batchQueueTracks, progressList_batchAux]
  apply List.map_congr_left
  intro k _
  simp only [Prod.mk.injEq, and_true]
  omega


/-- Claim C6: the pipeline attempts every track of the list in list order -
the attempt trace is the concatenation, in list order, of one contiguous
non-empty block per track (the model is strictly sequential, so one
submission is in flight at a time) - and after each item outcome, whatever
it was, the completed counter increments and onProgress fires: the progress
trace is exactly (1,n), (2,n), ..., (n,n), whose last event reaches n even
when items permanently fail. -/
theorem C6_sequential_attempts_and_progress (o : Nat → Nat → Outcome)
    (uris : List String) :
    progressList (batchQueueTracks o uris) =
      (List.range uris.length).map (fun k => (k + 1, uris.length)) ∧
    attemptList (batchQueueTracks o uris) =
      (uris.enumFrom 0).flatMap (fun p =>
        List.replicate (attemptList (queueOneTrack (o p.1) p.2)).length p.2) ∧
    (∀ i uri, 1 ≤ (attemptList (queueOneTrack (o i) uri)).length) ∧
    (progressList (batchQueueTracks o uris)).getLast? =
      (if uris.length = 0 then none else some (uris.length, uris.length)) := by
  refine ⟨progressList_batchQueueTracks o uris,
    attemptList_batchAux o uris 0 uris.length,
    fun i uri => one_le_attempts (o i) uri, ?_⟩
  rw [progressList_batchQueueTracks o uris]
  cases hn : uris.length with
  | zero => rfl
  | succ m =>
    rw [if_neg (by omega), List.range_succ, List.map_append]
    simp


/-- Claim C5: a track whose submissions are all classified 429 is attempted
once plus exactly 3 retries, with backoff sleeps of exactly 1000, 2000 and
4000 ms between attempts, after which the pipeline advances (the progress
trace still covers every track of the run); a track failing with a non-429
error is attempted exactly once, with no backoff and no retry, and the run
likewise advances. -/
theorem C5_rate_limit_retries (o : Nat → Nat → Outcome) (uri : String)
    (rest : List String) :
    ((∀ k, o 0 k = Outcome.err429) →
      queueOneTrack (o 0) uri =
        [QueueEvent.attempt uri, QueueEvent.backoff 1000,
         QueueEvent.attempt uri, QueueEvent.backoff 2000,
         QueueEvent.attempt uri, QueueEvent.backoff 4000,
         QueueEvent.attempt uri] ∧
      progressList (batchQueueTracks o (uri :: rest)) =
        (List.range (rest.length + 1)).map (fun k => (k + 1, rest.length + 1))) ∧
    (o 0 0 = Outcome.errOther →
      queueOneTrack (o 0) uri = [QueueEvent.attempt uri] ∧
      progressList (batchQueueTracks o (uri :: rest)) =
        (List.range (rest.length + 1)).map (fun k => (k + 1, rest.length + 1))) := by
  have hprog : progressList (batchQueueTracks o (uri :: rest)) =
      (List.range (rest.length + 1)).map (fun k => (k + 1, rest.length + 1)) := by
    have := progressList_batchQueueTracks o (uri :: rest)
    simpa using this
  constructor
  · intro h
    refine ⟨?_, hprog⟩
    simp [queueOneTrack, queueTrackLoop, maxRetries, h 0, h 1, h 2, h 3]
  · intro h
    refine ⟨?_, hprog⟩
    simp [queueOneTrack, queueTrackLoop, maxRetries, h]


/-- Claim C5, witnessed on concrete oracles: an always-429 first track and a
non-429-failing first track, each followed by one more track. -/
theorem C5_rate_limit_retries_witness :
    (queueOneTrack ((fun _ _ => Outcome.err429) 0) "a" =
        [QueueEvent.attempt "a", QueueEvent.backoff 1000,
         QueueEvent.attempt "a", QueueEvent.backoff 2000,
         QueueEvent.attempt "a", QueueEvent.backoff 4000,
         QueueEvent.attempt "a"] ∧
      progressList (batchQueueTracks (fun _ _ => Outcome.err429) ["a", "b"]) =
        (List.range (["b"].length + 1)).map (fun k => (k + 1, ["b"].length + 1))) ∧
    (queueOneTrack ((fun _ _ => Outcome.errOther) 0) "a" = [QueueEvent.attempt "a"] ∧
      progressList (batchQueueTracks (fun _ _ => Outcome.errOther) ["a", "b"]) =
        (List.range (["b"].length + 1)).map (fun k => (k + 1, ["b"].length + 1))) :=
  ⟨(C5_rate_limit_retries (fun _ _ => Outcome.err429) "a" ["b"]).1 (fun _ => rfl),
   (C5_rate_limit_retries (fun _ _ => Outcome.errOther) "a" ["b"]).2 rfl⟩


/-- Claim C1: for every resolved non-empty track list and resolved device,
the mutation submits exactly min(n, 150) tracks: the head of the shuffled
list is played, the queued tracks are exactly the next min(n, 150) - 1
elements of that same shuffled list, and played ++ queued is precisely the
length-min(n, 150) initial segment of the single shuffled permutation. -/
theorem C1_queue_cap {α : Type _} (tracks : List α) (rand : Nat → ℚ) (d : String)
    (h1 : 1 ≤ tracks.length) :
    (useQueueShuffleMutation tracks rand (some d)).result = true ∧
    (useQueueShuffleMutation tracks rand (some d)).played =
      (trueRandomShuffle tracks rand).take 1 ∧
    (useQueueShuffleMutation tracks rand (some d)).queued =
      ((trueRandomShuffle tracks rand).drop 1).take
        (min tracks.length MAX_QUEUE_SIZE - 1) ∧
    (useQueueShuffleMutation tracks rand (some d)).played ++
        (useQueueShuffleMutation tracks rand (some d)).queued =
      (trueRandomShuffle tracks rand).take (min tracks.length MAX_QUEUE_SIZE) ∧
    ((useQueueShuffleMutation tracks rand (some d)).played ++
        (useQueueShuffleMutation tracks rand (some d)).queued).length =
      min tracks.length MAX_QUEUE_SIZE := by
  have hlen : (trueRandomShuffle tracks rand).length = tracks.length :=
    (trueRandomShuffle_perm tracks rand).length_eq
  have hne : tracks.isEmpty = false := by
    cases tracks with
    | nil => simp at h1
    | cons x xs => rfl
  cases hs : trueRandomShuffle tracks rand with
  | nil =>
    rw [hs] at hlen
    simp at hlen
    omega
  | cons first rest =>
    have hrest : rest.length = tracks.length - 1 := by
      rw [hs] at hlen
      simp at hlen
      omega
    have hmin1 : 1 ≤ min tracks.length MAX_QUEUE_SIZE := by
      simp only [MAX_QUEUE_SIZE]
      omega
    have hrun : useQueueShuffleMutation tracks rand (some d) =
        ⟨[first], rest.take (MAX_QUEUE_SIZE - 1), true⟩ := by
      unfold useQueueShuffleMutation
      rw [hne, hs]
      rfl
    have hq : rest.take (MAX_QUEUE_SIZE - 1) =
        rest.take (min tracks.length MAX_QUEUE_SIZE - 1) := by
      apply List.take_eq_take.mpr
      simp only [MAX_QUEUE_SIZE] at *
      omega
    have hsucc : min tracks.length MAX_QUEUE_SIZE =
        (min tracks.length MAX_QUEUE_SIZE - 1) + 1 := by omega
    refine ⟨by rw [hrun], ?_, ?_, ?_, ?_⟩
    · rw [hrun]
      rfl
    · rw [hrun]
      simp only [List.drop_succ_cons, List.drop_zero]
      exact hq
    · rw [hrun, hsucc, List.take_succ_cons]
      simp [hq]
    · rw [hrun]
      simp only [List.singleton_append, List.length_cons, List.length_take]
      simp only [MAX_QUEUE_SIZE] at *
      omega


/-- Claim C1, witnessed on a concrete three-track list with a device. -/
theorem C1_queue_cap_witness :
    (useQueueShuffleMutation [0, 1, 2] (fun _ => (1 : ℚ) / 2) (some "dev")).result = true ∧
    (useQueueShuffleMutation [0, 1, 2] (fun _ => (1 : ℚ) / 2) (some "dev")).played =
      (trueRandomShuffle [0, 1, 2] (fun _ => (1 : ℚ) / 2)).take 1 ∧
    (useQueueShuffleMutation [0, 1, 2] (fun _ => (1 : ℚ) / 2) (some "dev")).queued =
      ((trueRandomShuffle [0, 1, 2] (fun _ => (1 : ℚ) / 2)).drop 1).take
        (min ([0, 1, 2] : List ℕ).length MAX_QUEUE_SIZE - 1) ∧
    (useQueueShuffleMutation [0, 1, 2] (fun _ => (1 : ℚ) / 2) (some "dev")).played ++
        (useQueueShuffleMutation [0, 1, 2] (fun _ => (1 : ℚ) / 2) (some "dev")).queued =
      (trueRandomShuffle [0, 1, 2] (fun _ => (1 : ℚ) / 2)).take
        (min ([0, 1, 2] : List ℕ).length MAX_QUEUE_SIZE) ∧
    ((useQueueShuffleMutation [0, 1, 2] (fun _ => (1 : ℚ) / 2) (some "dev")).played ++
        (useQueueShuffleMutation [0, 1, 2] (fun _ => (1 : ℚ) / 2) (some "dev")).queued).length =
      min ([0, 1, 2] : List ℕ).length MAX_QUEUE_SIZE :=
  C1_queue_cap [0, 1, 2] (fun _ => (1 : ℚ) / 2) "dev" (by norm_num)


end Spotify
